import Mathlib

/-!
Shallow embedding of the solar calculator core of the `climate-api` repository
(`src/app/sun_calculator.py`), together with theorems settling the frozen
claims about its specification.

Modelling conventions:

* Python floats are modelled exactly: rational arithmetic (`ℚ`) where the code
  only compares, adds and rounds finite decimal quantities, and real
  arithmetic (`ℝ`) for the transcendental sunrise-equation chain.
* A timezone-aware `datetime` is modelled by its instant, measured in whole
  minutes since an epoch (the code only ever builds instants with zero
  seconds: `datetime.time(hour, minute)`).  `astimezone` changes the
  wall-clock rendering of an aware datetime but not its instant, and Python
  compares and subtracts aware datetimes by instant, so the local-time
  conversion is the identity on this representation.
* A calendar date is modelled by its epoch day number (`ℤ`); `date2 - date1`
  in days, `date + timedelta(days=1)` and `date1 <= date2` correspond exactly
  to integer subtraction, successor and order under this representation.
  The Gregorian (year, month, day) decomposition of a day number is kept
  abstract (parameters `monthOf` / `ymd`), since no claim depends on it.
* The external `TimezoneFinder().timezone_at` lookup is an injected parameter
  `tzAt`; IANA timezone identifiers are modelled as `ℕ` with `0` standing for
  the `'UTC'` fallback string.
-/

namespace ClimateApi

/-! ## Generic numeric helpers -/

/-- Python's `%` on floats with a positive divisor: `a % b = a - b * ⌊a / b⌋`,
which lies in `[0, b)` for `b > 0`. -/
noncomputable def rmod (a b : ℝ) : ℝ := a - b * ⌊a / b⌋

/-- `math.radians`. -/
noncomputable def rad (x : ℝ) : ℝ := x * Real.pi / 180

/-- `math.degrees`. -/
noncomputable def deg (x : ℝ) : ℝ := x * 180 / Real.pi

/-- Python's `round(x, 2)` on the exact values arising here.  (Python uses
round-half-to-even; all values this code rounds are integer multiples of
`1/300`, never half-way between two cents, so half-up `round` agrees.) -/
def round2 (x : ℚ) : ℚ := (round (x * 100) : ℤ) / 100

/-! ## `sun_calculator.py` lines 21-26: `get_timezone` -/

/-- `get_timezone`: look the coordinate up with the injected
`TimezoneFinder.timezone_at` (`tzAt`), defaulting to `'UTC'` (encoded `0`)
when no timezone is found. -/
def get_timezone (tzAt : ℚ → ℚ → Option ℕ) (latitude longitude : ℚ) : ℕ :=
  match tzAt latitude longitude with
  | none => 0
  | some z => z

/-! ## `sun_calculator.py` lines 46-105: the sunrise-equation chain

The rise event uses hour value `6`, the set event hour value `18`
(parameter `ev` below); the code writes the two copies out by hand
(`t_rise`/`t_set`, `m_rise`/`m_set`, ...). -/

/-- Lines 47-50: the Julian-day approximation `n`. -/
noncomputable def nday (y mo dy : ℤ) : ℝ :=
  ((⌊(275 * (mo : ℝ)) / 9⌋ - ⌊((mo : ℝ) + 9) / 12⌋ *
      (1 + ⌊((y : ℝ) - 4 * (⌊(y : ℝ) / 4⌋ : ℤ) + 2) / 3⌋) + dy - 30 : ℤ) : ℝ)

/-- Lines 56-57: `t = n + ((ev - lngHour) / 24)` where `lngHour = longitude / 15`. -/
noncomputable def tApprox (lon : ℝ) (y mo dy : ℤ) (ev : ℝ) : ℝ :=
  nday y mo dy + ((ev - lon / 15) / 24)

/-- Lines 60-61: the Sun's mean anomaly `M = 0.9856 * t - 3.289`. -/
noncomputable def meanAnomaly (lon : ℝ) (y mo dy : ℤ) (ev : ℝ) : ℝ :=
  0.9856 * tApprox lon y mo dy ev - 3.289

/-- Lines 64-69: the Sun's true longitude, reduced into `[0, 360)` by `% 360`. -/
noncomputable def trueLong (lon : ℝ) (y mo dy : ℤ) (ev : ℝ) : ℝ :=
  rmod (meanAnomaly lon y mo dy ev
      + 1.916 * Real.sin (rad (meanAnomaly lon y mo dy ev))
      + 0.020 * Real.sin (rad (2 * meanAnomaly lon y mo dy ev))
      + 282.634) 360

/-- Lines 72-81: right ascension, quadrant-corrected and converted to hours. -/
noncomputable def rightAscHours (lon : ℝ) (y mo dy : ℤ) (ev : ℝ) : ℝ :=
  (deg (Real.arctan (0.91764 * Real.tan (rad (trueLong lon y mo dy ev))))
    + ((⌊trueLong lon y mo dy ev / 90⌋ : ℤ) * 90
        - (⌊deg (Real.arctan (0.91764 * Real.tan (rad (trueLong lon y mo dy ev)))) / 90⌋ : ℤ) * 90)) / 15

/-- Lines 84/86: `sin_dec = 0.39782 * sin(L)` — the argument later passed to `asin`. -/
noncomputable def sinDec (lon : ℝ) (y mo dy : ℤ) (ev : ℝ) : ℝ :=
  0.39782 * Real.sin (rad (trueLong lon y mo dy ev))

/-- Lines 85/87: `cos_dec = cos(asin(sin_dec))`. -/
noncomputable def cosDec (lon : ℝ) (y mo dy : ℤ) (ev : ℝ) : ℝ :=
  Real.cos (Real.arcsin (sinDec lon y mo dy ev))

/-- Lines 90-91: the hour-angle cosine `cosH`.  (Division in `ℝ`; the float
denominator is never exactly zero on actual inputs.) -/
noncomputable def cosH (lat lon : ℝ) (y mo dy : ℤ) (ev : ℝ) : ℝ :=
  (Real.sin (rad (-0.83)) - Real.sin (rad lat) * sinDec lon y mo dy ev)
    / (Real.cos (rad lat) * cosDec lon y mo dy ev)

/-- Lines 100/104: local mean time of rising,
`T = (360 - acos(cosH))/15 + RA - 0.06571*t - 6.622`. -/
noncomputable def tLocalRise (lat lon : ℝ) (y mo dy : ℤ) : ℝ :=
  (360 - deg (Real.arccos (cosH lat lon y mo dy 6))) / 15
    + rightAscHours lon y mo dy 6 - 0.06571 * tApprox lon y mo dy 6 - 6.622

/-- Lines 101/105: local mean time of setting,
`T = acos(cosH)/15 + RA - 0.06571*t - 6.622`. -/
noncomputable def tLocalSet (lat lon : ℝ) (y mo dy : ℤ) : ℝ :=
  deg (Real.arccos (cosH lat lon y mo dy 18)) / 15
    + rightAscHours lon y mo dy 18 - 0.06571 * tApprox lon y mo dy 18 - 6.622

/-! ## Lines 107-117: UTC adjustment and hour/minute split -/

/-- Lines 108-109: `UTC = (T - lngHour) % 24`. -/
noncomputable def utcOfT (t lngHour : ℝ) : ℝ := rmod (t - lngHour) 24

/-- Line 114/116: `int(utc)` — truncation toward zero; the argument is the
result of `% 24`, hence nonnegative, so this is the floor. -/
noncomputable def splitHour (u : ℝ) : ℤ := ⌊u⌋

/-- Line 115/117: `int((utc % 1) * 60)` — the fractional part times 60,
truncated toward zero (the argument is nonnegative, so this is the floor);
the minute is never rounded to nearest. -/
noncomputable def splitMinute (u : ℝ) : ℤ := ⌊rmod u 1 * 60⌋

/-- The UTC value for the rise event (line 108). -/
noncomputable def utcRise (lat lon : ℝ) (y mo dy : ℤ) : ℝ :=
  utcOfT (tLocalRise lat lon y mo dy) (lon / 15)

/-- The UTC value for the set event (line 109). -/
noncomputable def utcSet (lat lon : ℝ) (y mo dy : ℤ) : ℝ :=
  utcOfT (tLocalSet lat lon y mo dy) (lon / 15)

/-! ## Lines 119-156: building the instants and the day-rollover correction -/

/-- Lines 124-134: `datetime.combine(date, time(hour, minute), tzinfo=UTC)`
as an instant in minutes; `t` is the epoch day number of `date`. -/
def mkInstant (t h m : ℤ) : ℤ := t * 1440 + h * 60 + m

/-- Lines 140-154: the day-rollover correction, on instants in minutes.
`r`/`s` are the local (= UTC-instant) sunrise/sunset; `timedelta(days=1)` is
`1440` minutes and `total_seconds() < 24*3600` is `< 1440` minutes (the
instants are whole minutes). -/
def rolloverFix (r s : ℤ) : ℤ × ℤ :=
  if s < r then
    if s + 1440 - r < 1440 then (r, s + 1440)
    else if s - (r - 1440) < 1440 then (r - 1440, s) else (r, s)
  else (r, s)

/-- The sunrise instant (lines 114-128) on day number `t`. -/
noncomputable def riseInstant (lat lon : ℝ) (y mo dy t : ℤ) : ℤ :=
  mkInstant t (splitHour (utcRise lat lon y mo dy)) (splitMinute (utcRise lat lon y mo dy))

/-- The sunset instant (lines 116-134) on day number `t`. -/
noncomputable def setInstant (lat lon : ℝ) (y mo dy t : ℤ) : ℤ :=
  mkInstant t (splitHour (utcSet lat lon y mo dy)) (splitMinute (utcSet lat lon y mo dy))

open Classical in
/-- `calculate_sunrise_sunset` (lines 28-156): the polar guard on the two
`cosH` values (lines 94-97) followed by the instant construction and the
rollover correction; returns the local sunrise/sunset instants (minutes),
`(None, None)` when the sun does not cross the horizon.  `y`/`mo`/`dy` are
the Gregorian fields of the date, `t` its epoch day number. -/
noncomputable def calculate_sunrise_sunset (lat lon : ℝ) (y mo dy t : ℤ) :
    Option ℤ × Option ℤ :=
  if cosH lat lon y mo dy 6 > 1 ∨ cosH lat lon y mo dy 18 > 1 then (none, none)
  else if cosH lat lon y mo dy 6 < -1 ∨ cosH lat lon y mo dy 18 < -1 then (none, none)
  else
    (some (rolloverFix (riseInstant lat lon y mo dy t) (setInstant lat lon y mo dy t)).1,
     some (rolloverFix (riseInstant lat lon y mo dy t) (setInstant lat lon y mo dy t)).2)

/-! ## Lines 158-218: daylight hours and the polar season heuristic -/

/-- `calculate_daylight_hours` (lines 158-176): `None` unless both events are
present, else `delta.total_seconds() / 3600`; the instants are in minutes, so
the seconds are `(s - r) * 60`. -/
def calculate_daylight_hours (sunrise sunset : Option ℤ) : Option ℚ :=
  match sunrise, sunset with
  | none, none => none
  | none, some _ => none
  | some _, none => none
  | some r, some s => some (((s - r : ℤ) : ℚ) * 60 / 3600)

/-- `is_polar_day` (lines 178-197), reading `date.month`. -/
def is_polar_day (latitude : ℚ) (month : ℤ) : Bool :=
  if latitude > 0 ∧ 4 ≤ month ∧ month ≤ 8 then true
  else if latitude < 0 ∧ (11 ≤ month ∨ month ≤ 2) then true
  else false

/-- `is_polar_night` (lines 199-218), reading `date.month`. -/
def is_polar_night (latitude : ℚ) (month : ℤ) : Bool :=
  if latitude > 0 ∧ (11 ≤ month ∨ month ≤ 2) then true
  else if latitude < 0 ∧ 5 ≤ month ∧ month ≤ 8 then true
  else false

/-! ## Lines 220-307: `get_sun_data_for_date_range` -/

/-- One element of the `data` list (lines 295-302).  `sunrise`/`sunset` keep
the local instants; `strftime`/`isoformat` turn a present instant into a
present string and `None` into `null`, so presence is preserved. -/
structure DayData where
  date : ℤ
  sunrise : Option ℤ
  sunset : Option ℤ
  daylightHours : Option ℚ
  polarDay : Bool
  polarNight : Bool
  deriving DecidableEq, Repr

/-- The result dictionary (lines 249-261). -/
structure RangeResult where
  lat : ℚ
  lon : ℚ
  timezone : ℕ
  startDate : ℤ
  endDate : ℤ
  days : ℤ
  data : List DayData
  deriving DecidableEq, Repr

/-- Lines 269-302: assembly of one per-day entry from the result of
`calculate_sunrise_sunset`.  When both events are `None` the season heuristic
decides polar day vs polar night (note: only `is_polar_day` is consulted;
its failure defaults to polar night); otherwise the polar flags are false and
the daylight hours are computed and rounded to 2 decimals. -/
def mkDayData (latitude : ℚ) (month d : ℤ) (sun : Option ℤ × Option ℤ) : DayData :=
  match sun with
  | (none, none) =>
      if is_polar_day latitude month then
        { date := d, sunrise := none, sunset := none,
          daylightHours := some (round2 24), polarDay := true, polarNight := false }
      else
        { date := d, sunrise := none, sunset := none,
          daylightHours := some (round2 0), polarDay := false, polarNight := true }
  | (ro, so) =>
      { date := d, sunrise := ro, sunset := so,
        daylightHours := (calculate_daylight_hours ro so).map round2,
        polarDay := false, polarNight := false }

/-- Lines 264-305: `while current_date <= end_date: ... current_date += 1 day`,
collecting one entry per day. -/
def rangeLoop (f : ℤ → DayData) (s e : ℤ) : List DayData :=
  if s ≤ e then f s :: rangeLoop f (s + 1) e else []
termination_by (e + 1 - s).toNat
decreasing_by simp_wf; omega

/-- `get_sun_data_for_date_range` (lines 220-307), generic in the injected
timezone lookup `tzAt`, the Gregorian month decomposition `monthOf`, and the
per-day sunrise/sunset computation `sunCalc` (line 267's call into
`calculate_sunrise_sunset` with the resolved timezone).  The timezone is
resolved once, before the loop (lines 240-242); `days` is
`(end - start).days + 1` (lines 245-246). -/
def get_sun_data_for_date_range (tzAt : ℚ → ℚ → Option ℕ) (monthOf : ℤ → ℤ)
    (sunCalc : ℤ → Option ℤ × Option ℤ) (latitude longitude : ℚ) (s e : ℤ) :
    RangeResult :=
  { lat := latitude, lon := longitude,
    timezone := get_timezone tzAt latitude longitude,
    startDate := s, endDate := e,
    days := (e - s) + 1,
    data := rangeLoop (fun d => mkDayData latitude (monthOf d) d (sunCalc d)) s e }

/-- The fully composed range computation: the generic driver instantiated
with the real trigonometric core, given a Gregorian decomposition `ymd` of
epoch day numbers. -/
noncomputable def get_sun_data_real (tzAt : ℚ → ℚ → Option ℕ)
    (ymd : ℤ → ℤ × ℤ × ℤ) (latitude longitude : ℚ) (s e : ℤ) : RangeResult :=
  get_sun_data_for_date_range tzAt (fun d => (ymd d).2.1)
    (fun d => calculate_sunrise_sunset (latitude : ℝ) (longitude : ℝ)
      (ymd d).1 (ymd d).2.1 (ymd d).2.2 d)
    latitude longitude s e

/-! ## Shape predicates used to state the invariants -/

/-- The shape `calculate_sunrise_sunset` guarantees for its result: both
events absent, or both present with sunset at or after sunrise and a span
under 24 hours. -/
def orderedSpan : Option ℤ × Option ℤ → Prop
  | (some r, some s) => r ≤ s ∧ s - r < 1440
  | _ => True

/-- The possible results of `calculate_sunrise_sunset`: both absent, or both
present with ordered sub-24-hour span (mixed presence never occurs). -/
def sunShape : Option ℤ × Option ℤ → Prop
  | (none, none) => True
  | (some r, some s) => r ≤ s ∧ s - r < 1440
  | _ => False

/-! ## Helper lemmas -/

theorem rmod_eq_mul_fract (x : ℝ) {c : ℝ} (hc : c ≠ 0) :
    rmod x c = c * Int.fract (x / c) := by
  unfold rmod
  rw [Int.fract, mul_sub, mul_div_cancel₀ x hc]

theorem rmod_nonneg (x : ℝ) {c : ℝ} (hc : 0 < c) : 0 ≤ rmod x c := by
  rw [rmod_eq_mul_fract x hc.ne']
  exact mul_nonneg hc.le (Int.fract_nonneg _)

theorem rmod_lt (x : ℝ) {c : ℝ} (hc : 0 < c) : rmod x c < c := by
  rw [rmod_eq_mul_fract x hc.ne']
  have := mul_lt_mul_of_pos_left (Int.fract_lt_one (x / c)) hc
  simpa using this

theorem rmod_one_eq (u : ℝ) : rmod u 1 = u - ⌊u⌋ := by
  unfold rmod
  rw [div_one, one_mul]

theorem splitHour_bounds {u : ℝ} (h0 : 0 ≤ u) (h24 : u < 24) :
    0 ≤ splitHour u ∧ splitHour u ≤ 23 := by
  unfold splitHour
  constructor
  · exact Int.le_floor.mpr (by exact_mod_cast h0)
  · have : ⌊u⌋ < 24 := Int.floor_lt.mpr (by exact_mod_cast h24)
    omega

theorem splitMinute_bounds (u : ℝ) : 0 ≤ splitMinute u ∧ splitMinute u ≤ 59 := by
  unfold splitMinute
  have h0 : 0 ≤ rmod u 1 := rmod_nonneg u one_pos
  have h1 : rmod u 1 < 1 := rmod_lt u one_pos
  constructor
  · exact Int.le_floor.mpr (by push_cast; nlinarith)
  · have : ⌊rmod u 1 * 60⌋ < 60 := Int.floor_lt.mpr (by push_cast; nlinarith)
    omega

theorem riseInstant_bounds (lat lon : ℝ) (y mo dy t : ℤ) :
    t * 1440 ≤ riseInstant lat lon y mo dy t ∧
      riseInstant lat lon y mo dy t < t * 1440 + 1440 := by
  have hu0 : 0 ≤ utcRise lat lon y mo dy := rmod_nonneg _ (by norm_num)
  have hu1 : utcRise lat lon y mo dy < 24 := rmod_lt _ (by norm_num)
  have hh := splitHour_bounds hu0 hu1
  have hm := splitMinute_bounds (utcRise lat lon y mo dy)
  unfold riseInstant mkInstant
  omega

theorem setInstant_bounds (lat lon : ℝ) (y mo dy t : ℤ) :
    t * 1440 ≤ setInstant lat lon y mo dy t ∧
      setInstant lat lon y mo dy t < t * 1440 + 1440 := by
  have hu0 : 0 ≤ utcSet lat lon y mo dy := rmod_nonneg _ (by norm_num)
  have hu1 : utcSet lat lon y mo dy < 24 := rmod_lt _ (by norm_num)
  have hh := splitHour_bounds hu0 hu1
  have hm := splitMinute_bounds (utcSet lat lon y mo dy)
  unfold setInstant mkInstant
  omega

/-- Analysis of the rollover correction on instants lying in one UTC day:
the result is ordered with a span under 24 hours, and when sunset precedes
sunrise the correction is exactly the sunset-forward shift. -/
theorem rolloverFix_analysis {lo r s : ℤ} (h1 : lo ≤ r) (h2 : r < lo + 1440)
    (h3 : lo ≤ s) (h4 : s < lo + 1440) :
    (rolloverFix r s).1 ≤ (rolloverFix r s).2 ∧
      (rolloverFix r s).2 - (rolloverFix r s).1 < 1440 ∧
      (s < r → rolloverFix r s = (r, s + 1440)) ∧
      (r ≤ s → rolloverFix r s = (r, s)) := by
  unfold rolloverFix
  split_ifs with hlt hspan <;> simp_all <;> omega

theorem rangeLoop_eq_map (f : ℤ → DayData) :
    ∀ (n : ℕ) (s e : ℤ), e = s + n →
      rangeLoop f s e = (List.range (n + 1)).map (fun i : ℕ => f (s + (i : ℤ))) := by
  intro n
  induction n with
  | zero =>
      intro s e he
      subst he
      rw [rangeLoop, if_pos (by omega), rangeLoop, if_neg (by omega)]
      norm_num [List.range_succ]
  | succ k ih =>
      intro s e he
      rw [rangeLoop, if_pos (by omega)]
      rw [ih (s + 1) e (by omega)]
      conv_rhs => rw [List.range_succ_eq_map]
      rw [List.map_cons, List.map_map]
      congr 1
      · norm_num
      · apply List.map_congr_left
        intro i _
        simp only [Function.comp_apply]
        congr 1
        push_cast
        ring

theorem rangeLoop_nil (f : ℤ → DayData) {s e : ℤ} (h : e < s) :
    rangeLoop f s e = [] := by
  rw [rangeLoop, if_neg (by omega)]

theorem rangeLoop_single (f : ℤ → DayData) (d : ℤ) : rangeLoop f d d = [f d] := by
  have h := rangeLoop_eq_map f 0 d d (by simp)
  norm_num [List.range_succ] at h
  exact h

theorem mkDayData_date (latitude : ℚ) (month d : ℤ) (sun : Option ℤ × Option ℤ) :
    (mkDayData latitude month d sun).date = d := by
  rcases sun with ⟨ro, so⟩
  rcases ro <;> rcases so <;> simp only [mkDayData] <;> split_ifs <;> rfl

theorem is_polar_day_iff (latitude : ℚ) (m : ℤ) :
    is_polar_day latitude m = true ↔
      (0 < latitude ∧ 4 ≤ m ∧ m ≤ 8) ∨ (latitude < 0 ∧ (11 ≤ m ∨ m ≤ 2)) := by
  unfold is_polar_day
  split_ifs with h1 h2
  · simpa using Or.inl h1
  · simpa using Or.inr h2
  · simp only [Bool.false_eq_true, false_iff]
    tauto

theorem is_polar_night_iff (latitude : ℚ) (m : ℤ) :
    is_polar_night latitude m = true ↔
      (0 < latitude ∧ (11 ≤ m ∨ m ≤ 2)) ∨ (latitude < 0 ∧ 5 ≤ m ∧ m ≤ 8) := by
  unfold is_polar_night
  split_ifs with h1 h2
  · simpa using Or.inl h1
  · simpa using Or.inr h2
  · simp only [Bool.false_eq_true, false_iff]
    tauto

theorem mkDayData_regular (latitude : ℚ) (month d r s : ℤ) :
    mkDayData latitude month d (some r, some s) =
      { date := d, sunrise := some r, sunset := some s,
        daylightHours := some (round2 (((s - r : ℤ) : ℚ) * 60 / 3600)),
        polarDay := false, polarNight := false } := rfl

theorem round2_minutes_lt_24 {k : ℤ} (h1 : k < 1440) :
    round2 ((k : ℚ) * 60 / 3600) < 24 := by
  unfold round2
  rw [div_lt_iff₀ (by norm_num)]
  rw [round_eq]
  have hk : (k : ℚ) ≤ 1439 := by exact_mod_cast Int.lt_add_one_iff.mp h1
  have hb : (k : ℚ) * 60 / 3600 * 100 + 1 / 2 ≤ 14393 / 6 := by linarith
  have hfl : ⌊(k : ℚ) * 60 / 3600 * 100 + 1 / 2⌋ ≤ ⌊(14393 / 6 : ℚ)⌋ :=
    Int.floor_le_floor hb
  have h6 : ⌊(14393 / 6 : ℚ)⌋ = 2398 := by
    rw [Int.floor_eq_iff]
    norm_num
  have : ⌊(k : ℚ) * 60 / 3600 * 100 + 1 / 2⌋ ≤ 2398 := by omega
  calc (⌊(k : ℚ) * 60 / 3600 * 100 + 1 / 2⌋ : ℚ) ≤ 2398 := by exact_mod_cast this
    _ < 24 * 100 := by norm_num

theorem round2_minutes_eq_zero_iff {k : ℤ} (h0 : 0 ≤ k) :
    round2 ((k : ℚ) * 60 / 3600) = 0 ↔ k = 0 := by
  constructor
  · intro h
    by_contra hne
    have h1 : 1 ≤ k := by omega
    have h1q : (1 : ℚ) ≤ (k : ℚ) := by exact_mod_cast h1
    have hb : (13 / 6 : ℚ) ≤ (k : ℚ) * 60 / 3600 * 100 + 1 / 2 := by linarith
    have h2 : (2 : ℤ) ≤ ⌊(k : ℚ) * 60 / 3600 * 100 + 1 / 2⌋ :=
      Int.le_floor.mpr (le_trans (by norm_num) hb)
    have : round2 ((k : ℚ) * 60 / 3600) ≠ 0 := by
      unfold round2
      rw [round_eq]
      have hnum : (2 : ℚ) ≤ (⌊(k : ℚ) * 60 / 3600 * 100 + 1 / 2⌋ : ℚ) := by exact_mod_cast h2
      intro hz
      rw [div_eq_zero_iff] at hz
      rcases hz with hz | hz
      · rw [hz] at hnum
        norm_num at hnum
      · norm_num at hz
    exact this h
  · rintro rfl
    norm_num [round2]

/-- C2 (amended): for months `1..12`, `is_polar_day` holds exactly on
(lat > 0, month 4..8) ∪ (lat < 0, month {11,12,1,2}) and `is_polar_night`
exactly on (lat > 0, month {11,12,1,2}) ∪ (lat < 0, month 5..8); the two
predicates are never simultaneously true, latitude 0 satisfies neither, and
for nonzero latitude exactly one of them holds **iff** the month is outside
the transition months ({3,9,10} for the northern hemisphere, {3,4,9,10} for
the southern) — not for every month, as the claim states. -/
theorem polar_flags (latitude : ℚ) (m : ℤ) (h1 : 1 ≤ m) (h2 : m ≤ 12) :
    (is_polar_day latitude m = true ↔
        (0 < latitude ∧ 4 ≤ m ∧ m ≤ 8) ∨
          (latitude < 0 ∧ (m = 11 ∨ m = 12 ∨ m = 1 ∨ m = 2)))
    ∧ (is_polar_night latitude m = true ↔
        (0 < latitude ∧ (m = 11 ∨ m = 12 ∨ m = 1 ∨ m = 2)) ∨
          (latitude < 0 ∧ 5 ≤ m ∧ m ≤ 8))
    ∧ ¬(is_polar_day latitude m = true ∧ is_polar_night latitude m = true)
    ∧ (latitude = 0 → is_polar_day latitude m = false ∧ is_polar_night latitude m = false)
    ∧ (latitude ≠ 0 →
        ((is_polar_day latitude m = true ∨ is_polar_night latitude m = true) ↔
          (0 < latitude ∧ ¬(m = 3 ∨ m = 9 ∨ m = 10)) ∨
            (latitude < 0 ∧ ¬(m = 3 ∨ m = 4 ∨ m = 9 ∨ m = 10)))) := by
  have hm : (11 ≤ m ∨ m ≤ 2) ↔ (m = 11 ∨ m = 12 ∨ m = 1 ∨ m = 2) := by omega
  refine ⟨?_, ?_, ?_, ?_, ?_⟩
  · rw [is_polar_day_iff, hm]
  · rw [is_polar_night_iff, hm]
  · rw [is_polar_day_iff, is_polar_night_iff]
    rintro ⟨hA, hB⟩
    rcases hA with ⟨ha1, ha2⟩ | ⟨ha1, ha2⟩ <;>
      rcases hB with ⟨hb1, hb2⟩ | ⟨hb1, hb2⟩ <;>
      first
        | omega
        | linarith
  · intro h0
    subst h0
    constructor <;> norm_num [is_polar_day, is_polar_night]
  · intro hne
    rw [is_polar_day_iff, is_polar_night_iff]
    rcases lt_trichotomy latitude 0 with hl | hl | hl
    · have h0 : ¬(0 : ℚ) < latitude := not_lt.mpr hl.le
      simp only [h0, hl, false_and, false_or, or_false, true_and]
      omega
    · exact absurd hl hne
    · have h0 : ¬latitude < 0 := not_lt.mpr hl.le
      simp only [h0, hl, false_and, false_or, or_false, true_and]
      omega

/-- C2 counterexample: at latitude 1 (nonzero) and month 3 neither
`is_polar_day` nor `is_polar_night` holds, so it is not the case that
exactly one of the polar predicates holds for every nonzero latitude and
every month in `1..12`. -/
theorem polar_flags_cex :
    (1 : ℚ) ≠ 0 ∧ (1 : ℤ) ≤ 3 ∧ (3 : ℤ) ≤ 12 ∧
      is_polar_day 1 3 = false ∧ is_polar_night 1 3 = false := by
  refine ⟨by norm_num, by norm_num, by norm_num, ?_, ?_⟩ <;>
    norm_num [is_polar_day, is_polar_night]

/-- C2 witness: the amended theorem applied at latitude 3, month 5. -/
theorem polar_flags_witness :
    is_polar_day 3 5 = true ∨ is_polar_night 3 5 = true :=
  ((polar_flags 3 5 (by norm_num) (by norm_num)).2.2.2.2 (by norm_num)).mpr
    (Or.inl ⟨by norm_num, by omega⟩)

/-- C1: for `startDate ≤ endDate`, `get_sun_data_for_date_range` resolves the
timezone once (the result's timezone is the single `get_timezone` lookup for
the coordinates), the `data` list has exactly `(end - start).days + 1`
entries, the `i`-th entry's date is `start + i` (so dates start at
`startDate` and ascend by exactly one calendar day), and the reported
`dateRange.days` field equals the length of `data`. -/
theorem computeRange_length_dates (tzAt : ℚ → ℚ → Option ℕ) (monthOf : ℤ → ℤ)
    (sunCalc : ℤ → Option ℤ × Option ℤ) (latitude longitude : ℚ) (s e : ℤ)
    (hse : s ≤ e) :
    (get_sun_data_for_date_range tzAt monthOf sunCalc latitude longitude s e).data.length
        = (e - s).toNat + 1
    ∧ (get_sun_data_for_date_range tzAt monthOf sunCalc latitude longitude s e).days
        = ((get_sun_data_for_date_range tzAt monthOf sunCalc latitude longitude s e).data.length : ℤ)
    ∧ (get_sun_data_for_date_range tzAt monthOf sunCalc latitude longitude s e).timezone
        = get_timezone tzAt latitude longitude
    ∧ ∀ i (hi : i < (get_sun_data_for_date_range tzAt monthOf sunCalc latitude longitude s e).data.length),
        ((get_sun_data_for_date_range tzAt monthOf sunCalc latitude longitude s e).data.get
            ⟨i, hi⟩).date = s + i := by
  have hloop := rangeLoop_eq_map
    (fun d => mkDayData latitude (monthOf d) d (sunCalc d)) (e - s).toNat s e (by omega)
  have hlen :
      (get_sun_data_for_date_range tzAt monthOf sunCalc latitude longitude s e).data.length
        = (e - s).toNat + 1 := by
    simp only [get_sun_data_for_date_range, hloop, List.length_map, List.length_range]
  refine ⟨hlen, by rw [hlen]; simp only [get_sun_data_for_date_range]; omega, rfl, ?_⟩
  intro i hi
  simp only [get_sun_data_for_date_range] at hi ⊢
  rw [List.get_eq_getElem]
  simp only [hloop, List.getElem_map, List.getElem_range]
  exact mkDayData_date latitude (monthOf (s + (i : ℤ))) (s + (i : ℤ)) (sunCalc (s + (i : ℤ)))

/-- C1 witness: a three-day range (`s = 0`, `e = 2`) has three entries. -/
theorem computeRange_length_dates_witness :
    (get_sun_data_for_date_range (fun _ _ => none) (fun _ => 1) (fun _ => (none, none))
        1 2 0 2).data.length = 3 := by
  have h := (computeRange_length_dates (fun _ _ => none) (fun _ => 1)
    (fun _ => (none, none)) 1 2 0 2 (by norm_num)).1
  simpa using h

/-- C4: for `endDate < startDate` the range computation performs no per-day
computation at all (`data = []`, zero entries) and reports the non-positive
`days = (end - start).days + 1 ≤ 0`, the empty result that §4.2 of the spec
names as the `InvalidRange` outcome; no exception is raised. -/
theorem computeRange_empty_on_invalid_range (tzAt : ℚ → ℚ → Option ℕ)
    (monthOf : ℤ → ℤ) (sunCalc : ℤ → Option ℤ × Option ℤ)
    (latitude longitude : ℚ) (s e : ℤ) (hse : e < s) :
    (get_sun_data_for_date_range tzAt monthOf sunCalc latitude longitude s e).data = []
    ∧ (get_sun_data_for_date_range tzAt monthOf sunCalc latitude longitude s e).days
        = (e - s) + 1
    ∧ (get_sun_data_for_date_range tzAt monthOf sunCalc latitude longitude s e).days ≤ 0 := by
  refine ⟨?_, rfl, by simp only [get_sun_data_for_date_range]; omega⟩
  simp only [get_sun_data_for_date_range]
  exact rangeLoop_nil _ hse

/-- C4 witness: `s = 5`, `e = 3` yields an empty `data` list. -/
theorem computeRange_empty_on_invalid_range_witness :
    (get_sun_data_for_date_range (fun _ _ => none) (fun _ => 1) (fun _ => (none, none))
        1 2 5 3).data = [] :=
  (computeRange_empty_on_invalid_range (fun _ _ => none) (fun _ => 1)
    (fun _ => (none, none)) 1 2 5 3 (by norm_num)).1

/-- C5: on the instants the code actually feeds into the correction (sunrise
and sunset both built on the same UTC day, hour `0..23`, minute `0..59`):
whenever the local sunset precedes the local sunrise, the correction shifts
the sunset forward one UTC day, and the shift is discarded (falling back to
shifting sunrise back a day) **iff** the resulting rise→set span exceeds 24
hours — which never happens on this domain, so the sunset-forward shift is
always kept; when sunset does not precede sunrise no adjustment is made. -/
theorem rollover_correction (lo r s : ℤ) (h1 : lo ≤ r) (h2 : r < lo + 1440)
    (h3 : lo ≤ s) (h4 : s < lo + 1440) :
    (s < r →
        rolloverFix r s = (r, s + 1440)
        ∧ ((rolloverFix r s ≠ (r, s + 1440)) ↔ s + 1440 - r > 1440))
    ∧ (r ≤ s → rolloverFix r s = (r, s)) := by
  have h := rolloverFix_analysis h1 h2 h3 h4
  refine ⟨fun hlt => ⟨h.2.2.1 hlt, ?_⟩, h.2.2.2⟩
  constructor
  · intro hne
    exact absurd (h.2.2.1 hlt) hne
  · intro hgt
    omega

/-- C5 witness: sunrise instant 1000, sunset instant 500 (same day): the
sunset is shifted forward one day to 1940 and the shift kept. -/
theorem rollover_correction_witness : rolloverFix 1000 500 = (1000, 1940) :=
  ((rollover_correction 0 1000 500 (by norm_num) (by norm_num) (by norm_num)
      (by norm_num)).1 (by norm_num)).1

/-- C8 (the coordinate-validation requirement is not implemented): at
latitude 100 and longitude 200 — both outside the valid bounds — the range
computation does not fail with any `InvalidCoordinate` condition (its result
type has no error outcome and no bounds check occurs anywhere in
`sun_calculator.py` or the API layer); it computes a normal one-entry result
for a one-day range instead. -/
theorem no_coordinate_validation :
    (get_sun_data_for_date_range (fun _ _ => none) (fun _ => 1) (fun _ => (none, none))
        100 200 0 0).data
      = [{ date := 0, sunrise := none, sunset := none, daylightHours := some 0,
           polarDay := false, polarNight := true }]
    ∧ (get_sun_data_for_date_range (fun _ _ => none) (fun _ => 1) (fun _ => (none, none))
        100 200 0 0).days = 1
    ∧ (get_sun_data_for_date_range (fun _ _ => none) (fun _ => 1) (fun _ => (none, none))
        100 200 0 0).lat = 100
    ∧ (get_sun_data_for_date_range (fun _ _ => none) (fun _ => 1) (fun _ => (none, none))
        100 200 0 0).lon = 200 := by
  refine ⟨?_, rfl, rfl, rfl⟩
  simp only [get_sun_data_for_date_range, rangeLoop_single, mkDayData]
  norm_num [is_polar_day, round2]

/-- C3 (amended): for every per-day entry built from a result of the shape
`calculate_sunrise_sunset` can return, `daylightHours = 24.0` iff `polarDay`;
`polarNight` implies `daylightHours = 0.0`; and when both events are present
the entry carries the sunset−sunrise interval in hours rounded to 2
decimals, is never `24.0`, has both polar flags false, and equals `0.0`
exactly when the sunset instant coincides with the sunrise instant to the
minute — so, contrary to the claim, `0.0` does not imply `polarNight`. -/
theorem dayEntry_daylight (latitude : ℚ) (month d : ℤ) (sun : Option ℤ × Option ℤ)
    (hs : sunShape sun) :
    ((mkDayData latitude month d sun).polarDay = true ↔
        (mkDayData latitude month d sun).daylightHours = some 24)
    ∧ ((mkDayData latitude month d sun).polarNight = true →
        (mkDayData latitude month d sun).daylightHours = some 0)
    ∧ ∀ r s : ℤ, sun = (some r, some s) →
        (mkDayData latitude month d sun).daylightHours
            = some (round2 (((s - r : ℤ) : ℚ) * 60 / 3600))
        ∧ (mkDayData latitude month d sun).daylightHours ≠ some 24
        ∧ ((mkDayData latitude month d sun).daylightHours = some 0 ↔ s = r)
        ∧ (mkDayData latitude month d sun).polarDay = false
        ∧ (mkDayData latitude month d sun).polarNight = false := by
  rcases sun with ⟨ro, so⟩
  rcases ro with _ | r0 <;> rcases so with _ | s0
  · simp only [mkDayData]
    split_ifs with hp
    · refine ⟨?_, ?_, ?_⟩
      · simp only [true_iff]
        norm_num [round2]
      · intro hcontra
        simp at hcontra
      · intro r s hrs
        cases hrs
    · refine ⟨?_, ?_, ?_⟩
      · simp only [false_iff, Bool.false_eq_true]
        intro hcontra
        have h24 : round2 0 = 24 := by simpa using hcontra
        norm_num [round2] at h24
      · intro _
        norm_num [round2]
      · intro r s hrs
        cases hrs
  · simp only [sunShape] at hs
  · simp only [sunShape] at hs
  · simp only [sunShape] at hs
    rw [mkDayData_regular]
    have hlt := round2_minutes_lt_24 (k := s0 - r0) (by omega)
    have hz := round2_minutes_eq_zero_iff (k := s0 - r0) (by omega)
    refine ⟨?_, ?_, ?_⟩
    · simp only [Bool.false_eq_true, false_iff]
      intro hcontra
      have : round2 (((s0 - r0 : ℤ) : ℚ) * 60 / 3600) = 24 := by
        simpa using hcontra
      rw [this] at hlt
      norm_num at hlt
    · intro hcontra
      simp at hcontra
    · intro r s hrs
      injection hrs with hr hsproperty
      injection hr with hr
      injection hsproperty with hsv
      subst hr
      subst hsv
      refine ⟨rfl, ?_, ?_, rfl, rfl⟩
      · intro hcontra
        have : round2 (((s0 - r0 : ℤ) : ℚ) * 60 / 3600) = 24 := by
          simpa using hcontra
        rw [this] at hlt
        norm_num at hlt
      · constructor
        · intro hcontra
          have h0 : round2 (((s0 - r0 : ℤ) : ℚ) * 60 / 3600) = 0 := by
            simpa using hcontra
          have := hz.mp h0
          omega
        · intro hrs0
          subst hrs0
          norm_num [round2]

/-- C3 counterexample: a per-day entry of the range computation whose
sunrise and sunset are both present and coincide to the minute (instant 100
twice — a value the corrected core can emit, since the rollover correction
leaves an equal pair untouched) reports `daylightHours = 0.0` with
`polarNight = false`, refuting "daylightHours is 0.0 if and only if
polarNight is true" and "a day with both events present never reports
daylightHours equal to ... 0.0". -/
theorem dayEntry_daylight_cex :
    (get_sun_data_for_date_range (fun _ _ => none) (fun _ => 6)
        (fun _ => (some 100, some 100)) 50 0 0 0).data
      = [{ date := 0, sunrise := some 100, sunset := some 100,
           daylightHours := some 0, polarDay := false, polarNight := false }] := by
  simp only [get_sun_data_for_date_range, rangeLoop_single, mkDayData_regular]
  norm_num [round2]

/-- C3 witness: the amended theorem applied to a ten-hour day
(sunrise instant 0, sunset instant 600). -/
theorem dayEntry_daylight_witness :
    (mkDayData 50 6 0 (some 0, some 600)).daylightHours
        = some (round2 (((600 - 0 : ℤ) : ℚ) * 60 / 3600))
    ∧ (mkDayData 50 6 0 (some 0, some 600)).polarDay = false :=
  ⟨((dayEntry_daylight 50 6 0 (some 0, some 600)
      (by norm_num [sunShape])).2.2 0 600 rfl).1,
   ((dayEntry_daylight 50 6 0 (some 0, some 600)
      (by norm_num [sunShape])).2.2 0 600 rfl).2.2.2.1⟩

/-- C6: the UTC value of an event is `(T - lngHour) mod 24` — nonnegative,
below 24, and differing from `T - lngHour` by an integer multiple of 24 —
and it is split into the integer whole-hour component `⌊UTC⌋` and a minute
component equal to the fractional part times 60 truncated toward zero to an
integer (`splitMinute` is exactly `⌊frac · 60⌋`, bounded above by the exact
value and within 1 of it — never rounded to the nearest minute). -/
theorem utc_split (t lng : ℝ) :
    0 ≤ utcOfT t lng
    ∧ utcOfT t lng < 24
    ∧ (∃ k : ℤ, (t - lng) - utcOfT t lng = 24 * k)
    ∧ ((splitHour (utcOfT t lng) : ℝ) ≤ utcOfT t lng
        ∧ utcOfT t lng < splitHour (utcOfT t lng) + 1)
    ∧ splitMinute (utcOfT t lng) = ⌊(utcOfT t lng - ⌊utcOfT t lng⌋) * 60⌋
    ∧ ((splitMinute (utcOfT t lng) : ℝ) ≤ (utcOfT t lng - ⌊utcOfT t lng⌋) * 60
        ∧ (utcOfT t lng - ⌊utcOfT t lng⌋) * 60 < splitMinute (utcOfT t lng) + 1) := by
  refine ⟨rmod_nonneg _ (by norm_num), rmod_lt _ (by norm_num),
    ⟨⌊(t - lng) / 24⌋, by unfold utcOfT rmod; ring⟩, ⟨?_, ?_⟩, ?_, ?_, ?_⟩
  · exact Int.floor_le _
  · exact Int.lt_floor_add_one _
  · unfold splitMinute
    rw [rmod_one_eq]
  · unfold splitMinute
    rw [rmod_one_eq]
    exact Int.floor_le _
  · unfold splitMinute
    rw [rmod_one_eq]
    exact Int.lt_floor_add_one _

/-- C7: on every input, the declination argument handed to `asin` has
magnitude at most 0.39782 (`|sinDec| = |0.39782 · sin L| ≤ 0.39782`), and
either one of the two early-return guards of lines 94-97 fires or both
`cosH` values lie in `[-1, 1]` — so `acos` (line 100-101, evaluated only
past the guards) is applied only to arguments in `[-1, 1]` and no
arithmetic domain error is reachable. -/
theorem trig_domain_safe (lat lon : ℝ) (y mo dy : ℤ) :
    |sinDec lon y mo dy 6| ≤ 0.39782
    ∧ |sinDec lon y mo dy 18| ≤ 0.39782
    ∧ ((cosH lat lon y mo dy 6 > 1 ∨ cosH lat lon y mo dy 18 > 1)
        ∨ (cosH lat lon y mo dy 6 < -1 ∨ cosH lat lon y mo dy 18 < -1)
        ∨ (-1 ≤ cosH lat lon y mo dy 6 ∧ cosH lat lon y mo dy 6 ≤ 1
            ∧ -1 ≤ cosH lat lon y mo dy 18 ∧ cosH lat lon y mo dy 18 ≤ 1)) := by
  have hsin : ∀ ev : ℝ, |sinDec lon y mo dy ev| ≤ 0.39782 := by
    intro ev
    unfold sinDec
    rw [abs_mul]
    have h1 : |Real.sin (rad (trueLong lon y mo dy ev))| ≤ 1 :=
      abs_le.mpr ⟨Real.neg_one_le_sin _, Real.sin_le_one _⟩
    have h2 : |(0.39782 : ℝ)| = 0.39782 := by norm_num
    rw [h2]
    nlinarith [abs_nonneg (Real.sin (rad (trueLong lon y mo dy ev)))]
  refine ⟨hsin 6, hsin 18, ?_⟩
  rcases lt_or_le 1 (cosH lat lon y mo dy 6) with h6 | h6
  · exact Or.inl (Or.inl h6)
  rcases lt_or_le 1 (cosH lat lon y mo dy 18) with h18 | h18
  · exact Or.inl (Or.inr h18)
  rcases lt_or_le (cosH lat lon y mo dy 6) (-1) with g6 | g6
  · exact Or.inr (Or.inl (Or.inl g6))
  rcases lt_or_le (cosH lat lon y mo dy 18) (-1) with g18 | g18
  · exact Or.inr (Or.inl (Or.inr g18))
  exact Or.inr (Or.inr ⟨g6, h6, g18, h18⟩)

/-- C9: whenever `calculate_sunrise_sunset` returns two instants the sunset
is at or after the sunrise with a span strictly under 24 hours; on the
domain the correction actually receives (two instants in one UTC day),
shifting a too-early sunset forward one day always produces a span strictly
under 24 hours — the sunset shift is always kept and the shift-sunrise-back
branch can never execute; consequently the unrounded daylight hours of any
such pair lie in `[0, 24)`. -/
theorem sunrise_le_sunset_invariant :
    (∀ (lat lon : ℝ) (y mo dy t : ℤ),
        orderedSpan (calculate_sunrise_sunset lat lon y mo dy t))
    ∧ (∀ lo r s : ℤ, lo ≤ r → r < lo + 1440 → lo ≤ s → s < lo + 1440 → s < r →
        rolloverFix r s = (r, s + 1440) ∧ s + 1440 - r < 1440)
    ∧ (∀ r s : ℤ, r ≤ s → s - r < 1440 →
        calculate_daylight_hours (some r) (some s)
            = some (((s - r : ℤ) : ℚ) * 60 / 3600)
        ∧ 0 ≤ ((s - r : ℤ) : ℚ) * 60 / 3600
        ∧ ((s - r : ℤ) : ℚ) * 60 / 3600 < 24) := by
  refine ⟨?_, ?_, ?_⟩
  · intro lat lon y mo dy t
    unfold calculate_sunrise_sunset
    split_ifs with h1 h2
    · trivial
    · trivial
    · have hr := riseInstant_bounds lat lon y mo dy t
      have hs := setInstant_bounds lat lon y mo dy t
      have h := rolloverFix_analysis hr.1 hr.2 hs.1 hs.2
      exact ⟨h.1, h.2.1⟩
  · intro lo r s h1 h2 h3 h4 hlt
    have h := rolloverFix_analysis h1 h2 h3 h4
    exact ⟨h.2.2.1 hlt, by omega⟩
  · intro r s hle hlt
    have hq0 : (0 : ℚ) ≤ ((s - r : ℤ) : ℚ) := by
      exact_mod_cast sub_nonneg.mpr hle
    have hq1 : ((s - r : ℤ) : ℚ) ≤ 1439 := by
      exact_mod_cast Int.lt_add_one_iff.mp hlt
    exact ⟨rfl, by linarith, by linarith⟩

/-- C9 witness: the rollover part applied to sunrise 700, sunset 100 on day
0: the sunset is shifted to 1540 and the span 840 is under 24 hours. -/
theorem sunrise_le_sunset_invariant_witness : rolloverFix 700 100 = (700, 1540) :=
  (sunrise_le_sunset_invariant.2.1 0 700 100 (by norm_num) (by norm_num)
    (by norm_num) (by norm_num) (by norm_num)).1

/-- C10: `calculate_sunrise_sunset` returns its two events together — the
first component is `None` exactly when the second is — and the per-day
assembly preserves this, so an entry's sunrise and sunset are both null or
both non-null. -/
theorem events_both_or_neither :
    (∀ (lat lon : ℝ) (y mo dy t : ℤ),
        ((calculate_sunrise_sunset lat lon y mo dy t).1 = none ↔
          (calculate_sunrise_sunset lat lon y mo dy t).2 = none))
    ∧ (∀ (latitude : ℚ) (month d : ℤ) (sun : Option ℤ × Option ℤ),
        (sun.1 = none ↔ sun.2 = none) →
        ((mkDayData latitude month d sun).sunrise = none ↔
          (mkDayData latitude month d sun).sunset = none)) := by
  constructor
  · intro lat lon y mo dy t
    unfold calculate_sunrise_sunset
    split_ifs with h1 h2 <;> simp
  · intro latitude month d sun hsun
    rcases sun with ⟨ro, so⟩
    rcases ro with _ | r0 <;> rcases so with _ | s0
    · simp only [mkDayData]
      split_ifs <;> simp
    · simp at hsun
    · simp at hsun
    · rw [mkDayData_regular]
      simp

/-- C10 witness: the assembly part applied to a present pair. -/
theorem events_both_or_neither_witness :
    ((mkDayData 1 1 0 (some 5, some 65)).sunrise = none ↔
      (mkDayData 1 1 0 (some 5, some 65)).sunset = none) :=
  events_both_or_neither.2 1 1 0 (some 5, some 65) (by simp)

end ClimateApi

